import Mathlib

/-!
Shallow embedding of the quiz-session state machine of
src/components/QuizPlayer.tsx (with the data model of src/types.ts).

Conventions of the embedding:
- JS numbers that the component manipulates (time in seconds, position
  index) are modelled as Int; JS object maps (UserAnswers) as association
  lists with first-match lookup and in-place overwrite, matching object
  spread semantics.
- The setInterval callback (the timer tick) is a state transition that
  also returns the list of externally observable events it emits
  (onProgressUpdate calls and onFinish calls).  clearInterval is modelled
  by a timerRunning flag: once the interval is cleared, the callback is
  never invoked again, so a tick on a stopped timer is a no-op.
- The timer effect's dependency array is [answers, onProgressUpdate] and
  does not include timeLeft, so the handleSubmit closure the interval
  callback invokes at expiry captured the timeLeft of the render whose
  effect created the interval — a stale value, not the current one.  The
  tick transition therefore carries that captured value explicitly and
  the auto-submit payload is computed from it.  (The closure's captured
  answers are current, since answers is in the dependency array.)
- The JS test (newVal % 5 === 0) is a divisibility-by-5 test; Lean's Int
  emod agrees with the JS remainder on the zero test, so the plain % is
  used.
-/

namespace QuizApp

/-- An option of a multiple-choice question (src/types.ts, QuizOption). -/
structure QuizOption where
  key : String
  text : String
deriving Repr, DecidableEq

/-- A quiz question (src/types.ts, Question). -/
structure Question where
  id : Nat
  text : String
  options : List QuizOption
  correctAnswer : String
  explanation : Option String
deriving Repr, DecidableEq

/-- A quiz (src/types.ts, QuizData); timeLimit is optional. -/
structure QuizData where
  title : String
  questions : List Question
  timeLimit : Option Int
deriving Repr, DecidableEq

/-- UserAnswers (src/types.ts): a map from question id to selected option
key, modelled as an association list in insertion order. -/
abbrev UserAnswers := List (Nat × String)

/-- JS truthiness of a map read on a string-valued field: an absent entry
(undefined) and the empty string are falsy, every other string is truthy.
Used where the source tests a bare answers lookup (e.g. !initialAnswers of
q.id). -/
def jsFalsy : Option String → Bool
  | none => true
  | some s => s = ""

/-- First-match lookup in a UserAnswers map (a JS object read). -/
def lookupAnswer : UserAnswers → Nat → Option String
  | [], _ => none
  | (q, v) :: rest, qid => if q = qid then some v else lookupAnswer rest qid

/-- Overwrite-or-append of one entry, the object-spread update
of setAnswers in handleSelectOption: an existing key keeps its place with
the new value, a new key is appended. -/
def insertAnswer : UserAnswers → Nat → String → UserAnswers
  | [], qid, k => [(qid, k)]
  | (q, v) :: rest, qid, k =>
      if q = qid then (q, k) :: rest else (q, v) :: insertAnswer rest qid k

/-- allocatedTime in QuizPlayer: data.timeLimit or else one minute per
question; the JS or-operator falls through on a falsy (0 or absent)
timeLimit. -/
def allocatedTime (data : QuizData) : Int :=
  match data.timeLimit with
  | some t => if t = 0 then (data.questions.length : Int) * 60 else t
  | none => (data.questions.length : Int) * 60

/-- The timeLeft useState initial value: initialTimeLeft when it is not
null (a strict null test, so 0 is taken as given), otherwise
allocatedTime. -/
def initTimeLeft (data : QuizData) (initialTimeLeft : Option Int) : Int :=
  match initialTimeLeft with
  | some t => t
  | none => allocatedTime data

/-- JS Array.prototype.findIndex, with its -1 result for no match
rendered as none. -/
def findIdx {α : Type} (p : α → Bool) : List α → Option Nat
  | [] => none
  | x :: rest => if p x then some 0 else (findIdx p rest).map (· + 1)

/-- The initial-position useEffect of QuizPlayer: with a nonempty
initialAnswers map, findIndex of the first question whose recorded answer
is falsy; if the index is not -1 the position is set to it, otherwise
(and with empty initialAnswers) the position keeps its useState initial
value 0. -/
def initialQuestionIndex (data : QuizData) (initialAnswers : UserAnswers) : Int :=
  if initialAnswers.length > 0 then
    match findIdx (fun q => jsFalsy (lookupAnswer initialAnswers q.id)) data.questions with
    | some i => (i : Int)
    | none => 0
  else 0

/-- The mutable state of one quiz session: the three useState cells of
QuizPlayer plus the liveness of the interval handle (clearInterval sets
it to false). -/
structure SessionState where
  currentQuestionIndex : Int
  answers : UserAnswers
  timeLeft : Int
  timerRunning : Bool
deriving Repr, DecidableEq

/-- The externally observable calls of the session: onProgressUpdate
snapshots and the onFinish delivery. -/
inductive Event where
  | progress (answers : UserAnswers) (timeLeft : Int)
  | finish (answers : UserAnswers) (timeSpent : Int)
deriving Repr, DecidableEq

/-- handleSubmit: spent = Math.max(0, allocatedTime - timeLeft);
onFinish(answers, spent). -/
def handleSubmit (data : QuizData) (s : SessionState) : Event :=
  Event.finish s.answers (max 0 (allocatedTime data - s.timeLeft))

/-- A manual submission (the submit button onClick): calls handleSubmit;
no session state is changed and no guard is consulted. -/
def manualSubmit (data : QuizData) (s : SessionState) : SessionState × List Event :=
  (s, [handleSubmit data s])

/-- One firing of the setInterval callback.  newVal = prev - 1; a
progress snapshot is emitted when newVal % 5 === 0 and an
onProgressUpdate collaborator is attached (hp); at newVal <= 0 the
interval is cleared, the captured handleSubmit closure runs, and
timeLeft becomes 0.  The closure's timeLeft is the stale value captured
when the interval's effect last ran (the effect dependencies exclude
timeLeft), passed here as captured; its answers are the current ones.
A tick on a stopped timer never happens (the interval is cleared),
hence the no-op branch. -/
def tick (data : QuizData) (hp : Bool) (captured : Int) (s : SessionState) :
    SessionState × List Event :=
  if s.timerRunning then
    let newVal := s.timeLeft - 1
    let snap : List Event :=
      if newVal % 5 = 0 ∧ hp = true then [Event.progress s.answers newVal] else []
    if newVal ≤ 0 then
      ({ s with timeLeft := 0, timerRunning := false },
        snap ++ [handleSubmit data { s with timeLeft := captured }])
    else
      ({ s with timeLeft := newVal }, snap)
  else (s, [])

/-- n successive firings of one interval's callback, with the events
emitted along the way in order.  The captured closure value is fixed for
the interval's whole lifetime: with no interleaved answer change the
effect never re-runs, so the same closure fires every time. -/
def runTicks (data : QuizData) (hp : Bool) (captured : Int) :
    SessionState → Nat → SessionState × List Event
  | s, 0 => (s, [])
  | s, n + 1 =>
      let r1 := tick data hp captured s
      let r2 := runTicks data hp captured r1.1 n
      (r2.1, r1.2 ++ r2.2)

/-- Number of onFinish deliveries in an event trace. -/
def finishCount (es : List Event) : Nat :=
  (es.filter fun e => match e with | Event.finish _ _ => true | _ => false).length

/-- Number of onProgressUpdate snapshots in an event trace. -/
def progressCount (es : List Event) : Nat :=
  (es.filter fun e => match e with | Event.progress _ _ => true | _ => false).length

/-- handleSelectOption: records (or overwrites) the answer of one
question; nothing else in the state is touched. -/
def handleSelectOption (s : SessionState) (questionId : Nat) (optionKey : String) : SessionState :=
  { s with answers := insertAnswer s.answers questionId optionKey }

/-- Placeholder question for the out-of-range array read that the
component never performs at a valid position. -/
def defaultQuestion : Question :=
  { id := 0, text := "", options := [], correctAnswer := "", explanation := none }

/-- currentQuestion = data.questions of currentQuestionIndex. -/
def currentQuestion (data : QuizData) (s : SessionState) : Question :=
  data.questions.getD s.currentQuestionIndex.toNat defaultQuestion

/-- The keydown handler of QuizPlayer, as the switch over e.key.  The
first guard skips events whose target is a text input.  ArrowLeft and
ArrowRight/Enter clamp the position move; the digit/letter cases record
an answer only when the current question has an option with the mapped
key. -/
def handleKeyDown (data : QuizData) (s : SessionState) (key : String)
    (targetIsTextInput : Bool) : SessionState :=
  if targetIsTextInput then s
  else
    let currentQ := currentQuestion data s
    if key = "ArrowLeft" then
      { s with currentQuestionIndex := max 0 (s.currentQuestionIndex - 1) }
    else if key = "ArrowRight" ∨ key = "Enter" then
      { s with currentQuestionIndex := min ((data.questions.length : Int) - 1) (s.currentQuestionIndex + 1) }
    else if key = "1" ∨ key = "a" ∨ key = "A" then
      if currentQ.options.any (fun o => o.key == "A") then
        handleSelectOption s currentQ.id "A" else s
    else if key = "2" ∨ key = "b" ∨ key = "B" then
      if currentQ.options.any (fun o => o.key == "B") then
        handleSelectOption s currentQ.id "B" else s
    else if key = "3" ∨ key = "c" ∨ key = "C" then
      if currentQ.options.any (fun o => o.key == "C") then
        handleSelectOption s currentQ.id "C" else s
    else if key = "4" ∨ key = "d" ∨ key = "D" then
      if currentQ.options.any (fun o => o.key == "D") then
        handleSelectOption s currentQ.id "D" else s
    else s

/-- The sidebar index button onClick: setCurrentQuestionIndex(idx), with
idx the position of an existing question in the rendered list. -/
def clickIndex (s : SessionState) (idx : Int) : SessionState :=
  { s with currentQuestionIndex := idx }

/-- The previous-question footer button: Math.max(0, prev - 1). -/
def prevClick (s : SessionState) : SessionState :=
  { s with currentQuestionIndex := max 0 (s.currentQuestionIndex - 1) }

/-- The next-question footer button: Math.min(length - 1, prev + 1). -/
def nextClick (data : QuizData) (s : SessionState) : SessionState :=
  { s with currentQuestionIndex := min ((data.questions.length : Int) - 1) (s.currentQuestionIndex + 1) }

/-- The per-question correctness flag of the sidebar rendering:
answers of q.id === q.correctAnswer (an undefined read never equals a
string). -/
def isCorrectFlag (answers : UserAnswers) (q : Question) : Bool :=
  lookupAnswer answers q.id == some q.correctAnswer

/-- The per-question answered flag of the sidebar rendering:
!!answers of q.id. -/
def isAnsweredFlag (answers : UserAnswers) (q : Question) : Bool :=
  !(jsFalsy (lookupAnswer answers q.id))

/-- Modelled from the spec: the Scorer's count of correct answers (the
results-presentation component is not under src/); it counts the
questions whose per-question correctness flag from QuizPlayer is true. -/
def score (data : QuizData) (answers : UserAnswers) : Nat :=
  (data.questions.filter (fun q => isCorrectFlag answers q)).length

/-- The key-to-answer mapping stated by the spec's navigation table
(1/A to "A", 2/B to "B", 3/C to "C", 4/D to "D", case-insensitive),
written for comparison against the switch of handleKeyDown. -/
def mappedKey (key : String) : Option String :=
  if key = "1" ∨ key = "a" ∨ key = "A" then some "A"
  else if key = "2" ∨ key = "b" ∨ key = "B" then some "B"
  else if key = "3" ∨ key = "c" ∨ key = "C" then some "C"
  else if key = "4" ∨ key = "d" ∨ key = "D" then some "D"
  else none

/-- Session construction: the useState initial values together with the
initial-position effect. -/
def startSession (data : QuizData) (initialAnswers : UserAnswers)
    (initialTimeLeft : Option Int) : SessionState :=
  { currentQuestionIndex := initialQuestionIndex data initialAnswers,
    answers := initialAnswers,
    timeLeft := initTimeLeft data initialTimeLeft,
    timerRunning := true }

/-! Concrete example data used by witnesses and counterexamples. -/

/-- The four standard options. -/
def stdOptions : List QuizOption :=
  [{ key := "A", text := "first" }, { key := "B", text := "second" },
   { key := "C", text := "third" }, { key := "D", text := "fourth" }]

/-- Example question 1 (correct answer A). -/
def q1 : Question :=
  { id := 1, text := "one", options := stdOptions, correctAnswer := "A", explanation := none }

/-- Example question 2 (correct answer B). -/
def q2 : Question :=
  { id := 2, text := "two", options := stdOptions, correctAnswer := "B", explanation := none }

/-- Example question 3 (correct answer C). -/
def q3 : Question :=
  { id := 3, text := "three", options := stdOptions, correctAnswer := "C", explanation := none }

/-- A three-question quiz with a 5-second time limit. -/
def sampleQuiz : QuizData :=
  { title := "sample", questions := [q1, q2, q3], timeLimit := some 5 }

/-- A fresh session on sampleQuiz (no prior answers, no resumed time). -/
def sampleSession : SessionState := startSession sampleQuiz [] none

/-- Prior answers of a resumed session: question 1 answered A, questions
2 and 3 unanswered. -/
def resumeAnswers : UserAnswers := [(1, "A")]

/-! Theorems. -/

/-- Filtering a list for a Boolean field and counting true among the
mapped flags agree. -/
theorem filter_length_eq_count_true (p : Question → Bool) (l : List Question) :
    (l.filter p).length = (l.map p).count true := by
  induction l with
  | nil => rfl
  | cons q rest ih =>
      by_cases h : p q <;> simp [List.filter_cons, List.count_cons, h, ih]

/-- Claim C9 (failing run): on a fresh session run to expiry the
interval callback invokes the handleSubmit closure captured at mount,
whose timeLeft is the full allocation, so the delivered elapsed time is
max(0, allocatedTime - allocatedTime) = 0 — while the remaining time at
the moment of submission is 0 and the claim requires
allocatedTime - 0 = 5. -/
theorem C9_stale_elapsed_at_expiry :
    (runTicks sampleQuiz true 5 sampleSession 5).2.getLast? = some (Event.finish [] 0) ∧
    (runTicks sampleQuiz true 5 sampleSession 5).1.timeLeft = 0 ∧
    ¬ (0 : Int) = max 0 (allocatedTime sampleQuiz
      - (runTicks sampleQuiz true 5 sampleSession 5).1.timeLeft) := by
  decide

/-- Claim C10: the initial remaining time is initialTimeLeft whenever it
is non-null (0 included); otherwise data.timeLimit when nonzero;
otherwise the 60-seconds-per-question fallback — and handleSubmit uses
this same allocated value in the elapsed-time calculation. -/
theorem C10_time_setup (data : QuizData) :
    (∀ t : Int, initTimeLeft data (some t) = t) ∧
    (∀ t : Int, data.timeLimit = some t → t ≠ 0 →
      allocatedTime data = t ∧ initTimeLeft data none = t) ∧
    ((data.timeLimit = none ∨ data.timeLimit = some 0) →
      allocatedTime data = (data.questions.length : Int) * 60 ∧
      initTimeLeft data none = (data.questions.length : Int) * 60) ∧
    (∀ s : SessionState,
      handleSubmit data s = Event.finish s.answers (max 0 (allocatedTime data - s.timeLeft))) := by
  refine ⟨fun t => rfl, fun t ht hne => ?_, fun h => ?_, fun s => rfl⟩
  · constructor <;> simp [allocatedTime, initTimeLeft, ht, hne]
  · rcases h with h | h <;> constructor <;> simp [allocatedTime, initTimeLeft, h]

/-- Witness for C10: the sample quiz has timeLimit 5, so the allocation
is 5; a resumed initial time of 0 is honoured as 0. -/
theorem C10_time_setup_witness :
    allocatedTime sampleQuiz = 5 ∧ initTimeLeft sampleQuiz (some 0) = 0 :=
  ⟨((C10_time_setup sampleQuiz).2.1 5 rfl (by decide)).1, (C10_time_setup sampleQuiz).1 0⟩

/-- Claim C7: scoring is a pure exact-match comparison: the per-question
flag is true exactly on a strict match of the recorded answer with
correctAnswer, an unanswered question is incorrect, the score counts the
true flags, and the given three-question example scores 1 of 3 with
flags true, false, false. -/
theorem C7_exact_match_scoring (data : QuizData) (answers : UserAnswers) :
    (∀ q : Question,
      isCorrectFlag answers q = true ↔ lookupAnswer answers q.id = some q.correctAnswer) ∧
    (∀ q : Question, lookupAnswer answers q.id = none → isCorrectFlag answers q = false) ∧
    score data answers = (data.questions.map (fun q => isCorrectFlag answers q)).count true ∧
    score sampleQuiz [(1, "A"), (2, "X")] = 1 ∧
    sampleQuiz.questions.map (fun q => isCorrectFlag [(1, "A"), (2, "X")] q) =
      [true, false, false] := by
  refine ⟨fun q => ?_, fun q h => ?_, ?_, by decide, by decide⟩
  · simp [isCorrectFlag]
  · simp [isCorrectFlag, h]
  · exact filter_length_eq_count_true _ _

/-- Witness for C7: an unanswered question (id 1 absent from the map)
counts as incorrect. -/
theorem C7_exact_match_witness : isCorrectFlag [(2, "X")] q1 = false :=
  (C7_exact_match_scoring sampleQuiz [(2, "X")]).2.1 q1 (by decide)

/-- A successful lookup comes from an entry of the map. -/
theorem lookupAnswer_mem : ∀ (a : UserAnswers) (qid : Nat) (v : String),
    lookupAnswer a qid = some v → (qid, v) ∈ a := by
  intro a
  induction a with
  | nil => intro qid v h; simp [lookupAnswer] at h
  | cons p rest ih =>
      intro qid v h
      cases p with
      | mk q w =>
          by_cases hq : q = qid
          · subst hq
            simp [lookupAnswer] at h
            simp [h]
          · simp [lookupAnswer, hq] at h
            exact List.mem_cons_of_mem _ (ih qid v h)

/-- findIdx depends only on the predicate's values on the list. -/
theorem findIdx_congr (p q : Question → Bool) : ∀ l : List Question,
    (∀ x ∈ l, p x = q x) → findIdx p l = findIdx q l := by
  intro l
  induction l with
  | nil => intro _; rfl
  | cons x rest ih =>
      intro h
      have hx := h x (List.mem_cons_self _ _)
      simp [findIdx, hx, ih (fun y hy => h y (List.mem_cons_of_mem _ hy))]

/-- Claim C5: with a nonempty map of prior answers (whose recorded keys
are nonempty strings, as every recorded option key is), the initial
position is the index in display order of the first question whose id
has no recorded answer, and 0 when every question is answered. -/
theorem C5_resume_position (data : QuizData) (ia : UserAnswers)
    (hne : ia ≠ []) (hgood : ∀ p ∈ ia, p.2 ≠ "") :
    (∀ i : Nat,
      findIdx (fun q => (lookupAnswer ia q.id).isNone) data.questions = some i →
      initialQuestionIndex data ia = (i : Int)) ∧
    (findIdx (fun q => (lookupAnswer ia q.id).isNone) data.questions = none →
      initialQuestionIndex data ia = 0) := by
  have hlen : ia.length > 0 := by
    cases ia with
    | nil => exact absurd rfl hne
    | cons p rest => simp
  have hcong : findIdx (fun q => jsFalsy (lookupAnswer ia q.id)) data.questions
      = findIdx (fun q => (lookupAnswer ia q.id).isNone) data.questions := by
    refine findIdx_congr _ _ _ (fun q _ => ?_)
    cases hv : lookupAnswer ia q.id with
    | none => rfl
    | some v =>
        have hmem : (q.id, v) ∈ ia := lookupAnswer_mem _ _ _ hv
        have hv2 : v ≠ "" := hgood _ hmem
        simp [jsFalsy, hv2]
  constructor
  · intro i h
    simp [initialQuestionIndex, hlen, hcong, h]
  · intro h
    simp [initialQuestionIndex, hlen, hcong, h]

/-- Witness for C5: prior answers with only question 1 answered over
questions with ids 1, 2, 3 give initial position index 1. -/
theorem C5_resume_witness : initialQuestionIndex sampleQuiz resumeAnswers = 1 :=
  (C5_resume_position sampleQuiz resumeAnswers (by decide) (by decide)).1 1 (by decide)

/-- Claim C8: for a non-negative remaining time, a tick keeps it
non-negative and never increases it, and answer selection, key handling
and every position change leave it untouched. -/
theorem C8_time_monotone (data : QuizData) (hp : Bool) (cap : Int) (s : SessionState)
    (h : 0 ≤ s.timeLeft) :
    (0 ≤ (tick data hp cap s).1.timeLeft ∧ (tick data hp cap s).1.timeLeft ≤ s.timeLeft) ∧
    (∀ qid k, (handleSelectOption s qid k).timeLeft = s.timeLeft) ∧
    (∀ key t, (handleKeyDown data s key t).timeLeft = s.timeLeft) ∧
    (∀ idx, (clickIndex s idx).timeLeft = s.timeLeft) ∧
    (prevClick s).timeLeft = s.timeLeft ∧
    (nextClick data s).timeLeft = s.timeLeft := by
  refine ⟨?_, fun qid k => rfl, fun key t => ?_, fun idx => rfl, rfl, rfl⟩
  · simp only [tick]
    split_ifs <;> simp <;> omega
  · simp only [handleKeyDown]
    split_ifs <;> simp [handleSelectOption]

/-- Witness for C8 at the fresh sample session. -/
theorem C8_time_monotone_witness : 0 ≤ (tick sampleQuiz true 5 sampleSession).1.timeLeft :=
  ((C8_time_monotone sampleQuiz true 5 sampleSession (by decide)).1).1

/-- Claim C4: position navigation: a direct index click on a rendered
question index reads back as that index; the arrow-key and footer-button
moves clamp to the valid range, returning the requested neighbour when
it exists and the nearest boundary when the request leaves the range;
the footer buttons compute the same positions as the arrow keys. -/
theorem C4_position_clamping (data : QuizData) (s : SessionState)
    (hn : 1 ≤ data.questions.length)
    (h0 : 0 ≤ s.currentQuestionIndex)
    (h1 : s.currentQuestionIndex < (data.questions.length : Int)) :
    (∀ i : Int, 0 ≤ i → i < (data.questions.length : Int) →
      (clickIndex s i).currentQuestionIndex = i) ∧
    (handleKeyDown data s "ArrowLeft" false).currentQuestionIndex
      = max 0 (s.currentQuestionIndex - 1) ∧
    (handleKeyDown data s "ArrowRight" false).currentQuestionIndex
      = min ((data.questions.length : Int) - 1) (s.currentQuestionIndex + 1) ∧
    (handleKeyDown data s "Enter" false).currentQuestionIndex
      = min ((data.questions.length : Int) - 1) (s.currentQuestionIndex + 1) ∧
    (0 ≤ max 0 (s.currentQuestionIndex - 1) ∧
      max 0 (s.currentQuestionIndex - 1) < (data.questions.length : Int)) ∧
    (0 ≤ min ((data.questions.length : Int) - 1) (s.currentQuestionIndex + 1) ∧
      min ((data.questions.length : Int) - 1) (s.currentQuestionIndex + 1)
        < (data.questions.length : Int)) ∧
    (0 < s.currentQuestionIndex →
      max 0 (s.currentQuestionIndex - 1) = s.currentQuestionIndex - 1) ∧
    (s.currentQuestionIndex = 0 → max 0 (s.currentQuestionIndex - 1) = 0) ∧
    (s.currentQuestionIndex + 1 ≤ (data.questions.length : Int) - 1 →
      min ((data.questions.length : Int) - 1) (s.currentQuestionIndex + 1)
        = s.currentQuestionIndex + 1) ∧
    (s.currentQuestionIndex = (data.questions.length : Int) - 1 →
      min ((data.questions.length : Int) - 1) (s.currentQuestionIndex + 1)
        = (data.questions.length : Int) - 1) ∧
    prevClick s = handleKeyDown data s "ArrowLeft" false ∧
    nextClick data s = handleKeyDown data s "ArrowRight" false := by
  refine ⟨fun i hi1 hi2 => rfl, ?_, ?_, ?_, ⟨?_, ?_⟩, ⟨?_, ?_⟩, ?_, ?_, ?_, ?_, ?_, ?_⟩
  · simp [handleKeyDown]
  · simp [handleKeyDown]
  · simp [handleKeyDown]
  · exact le_max_left _ _
  · rw [max_lt_iff]; omega
  · rw [le_min_iff]; omega
  · exact min_lt_iff.mpr (Or.inl (by omega))
  · intro hp2; exact max_eq_right (by omega)
  · intro hp2; rw [hp2]; exact max_eq_left (by omega)
  · intro hp2; exact min_eq_right hp2
  · intro hp2; exact min_eq_left (by omega)
  · simp [handleKeyDown, prevClick]
  · simp [handleKeyDown, nextClick]

/-- Witness for C4: clicking index 2 on the fresh sample session reads
back as position 2. -/
theorem C4_position_witness : (clickIndex sampleSession 2).currentQuestionIndex = 2 :=
  (C4_position_clamping sampleQuiz sampleSession (by decide) (by decide)
    (by decide)).1 2 (by decide) (by decide)

/-- A tick on a stopped timer is a no-op with no events. -/
theorem tick_stopped (data : QuizData) (hp : Bool) (cap : Int) (s : SessionState)
    (h : s.timerRunning = false) : tick data hp cap s = (s, []) := by
  simp [tick, h]

/-- Any number of ticks on a stopped timer is a no-op with no events. -/
theorem runTicks_stopped (data : QuizData) (hp : Bool) (cap : Int) (s : SessionState)
    (h : s.timerRunning = false) : ∀ k, runTicks data hp cap s k = (s, []) := by
  intro k
  induction k with
  | zero => rfl
  | succ n ih => simp [runTicks, tick_stopped data hp cap s h, ih]

/-- finishCount distributes over trace concatenation. -/
theorem finishCount_append (a b : List Event) :
    finishCount (a ++ b) = finishCount a + finishCount b := by
  simp [finishCount, List.filter_append]

/-- progressCount distributes over trace concatenation. -/
theorem progressCount_append (a b : List Event) :
    progressCount (a ++ b) = progressCount a + progressCount b := by
  simp [progressCount, List.filter_append]

/-- A conditional snapshot contributes no onFinish delivery. -/
theorem finishCount_snap (c : Prop) [Decidable c] (a : UserAnswers) (t : Int) :
    finishCount (if c then [Event.progress a t] else []) = 0 := by
  split_ifs <;> rfl

/-- A conditional snapshot contributes one onProgressUpdate call exactly
when its condition holds. -/
theorem progressCount_snap (c : Prop) [Decidable c] (a : UserAnswers) (t : Int) :
    progressCount (if c then [Event.progress a t] else []) = if c then 1 else 0 := by
  split_ifs <;> rfl

/-- A lone onFinish delivery is no snapshot. -/
theorem progressCount_finish_single (a : UserAnswers) (t : Int) :
    progressCount [Event.finish a t] = 0 := rfl

/-- A lone onFinish delivery counts once. -/
theorem finishCount_finish_single (a : UserAnswers) (t : Int) :
    finishCount [Event.finish a t] = 1 := rfl

/-- A running, non-expiring tick decrements the remaining time and emits
a snapshot exactly on a multiple of five. -/
theorem tick_running (data : QuizData) (hp : Bool) (cap : Int) (s : SessionState)
    (h1 : s.timerRunning = true) (h2 : ¬ s.timeLeft - 1 ≤ 0) :
    tick data hp cap s = ({ s with timeLeft := s.timeLeft - 1 },
      if (s.timeLeft - 1) % 5 = 0 ∧ hp = true then
        [Event.progress s.answers (s.timeLeft - 1)] else []) := by
  rw [tick, if_pos h1, if_neg h2]

/-- A running, expiring tick zeroes the clock, stops the interval, and
appends the onFinish delivery after the conditional snapshot; the
delivered timeSpent is computed from the closure's captured timeLeft. -/
theorem tick_expire (data : QuizData) (hp : Bool) (cap : Int) (s : SessionState)
    (h1 : s.timerRunning = true) (h2 : s.timeLeft - 1 ≤ 0) :
    tick data hp cap s = ({ s with timeLeft := 0, timerRunning := false },
      (if (s.timeLeft - 1) % 5 = 0 ∧ hp = true then
        [Event.progress s.answers (s.timeLeft - 1)] else [])
        ++ [Event.finish s.answers (max 0 (allocatedTime data - cap))]) := by
  rw [tick, if_pos h1, if_pos h2]
  rfl

/-- A full run of T ticks from remaining time T stops the timer at 0 and
delivers onFinish exactly once. -/
theorem run_expiry (data : QuizData) (hp : Bool) (cap : Int) :
    ∀ T : Nat, 1 ≤ T → ∀ s : SessionState, s.timerRunning = true → s.timeLeft = (T : Int) →
    (runTicks data hp cap s T).1 = { s with timeLeft := 0, timerRunning := false } ∧
    finishCount (runTicks data hp cap s T).2 = 1 := by
  intro T
  induction T with
  | zero => intro h; omega
  | succ n ih =>
      intro _ s h1 h2
      by_cases hn : n = 0
      · subst hn
        have ht := tick_expire data hp cap s h1 (by omega)
        have hrun : runTicks data hp cap s 1
            = ((tick data hp cap s).1, (tick data hp cap s).2 ++ []) := rfl
        rw [hrun, ht]
        dsimp only
        constructor
        · rfl
        · rw [List.append_nil, finishCount_append, finishCount_snap,
            finishCount_finish_single]
      · have hn1 : 1 ≤ n := by omega
        have hc : s.timeLeft - 1 = (n : Int) := by omega
        have ht := tick_running data hp cap s h1 (by omega)
        rw [hc] at ht
        obtain ⟨ih1, ih2⟩ := ih hn1 { s with timeLeft := (n : Int) } h1 rfl
        have hrun : runTicks data hp cap s (n + 1)
            = ((runTicks data hp cap { s with timeLeft := (n : Int) } n).1,
              (if ((n : Int)) % 5 = 0 ∧ hp = true then
                [Event.progress s.answers ((n : Int))] else [])
                ++ (runTicks data hp cap { s with timeLeft := (n : Int) } n).2) := by
          simp [runTicks, ht]
        rw [hrun]
        dsimp only
        constructor
        · rw [ih1]
        · rw [finishCount_append, finishCount_snap, ih2]

/-- A full run of T ticks from remaining time T, with a progress
collaborator attached, emits exactly (T - 1) / 5 + 1 snapshots. -/
theorem run_progress (data : QuizData) (cap : Int) :
    ∀ T : Nat, 1 ≤ T → ∀ s : SessionState, s.timerRunning = true → s.timeLeft = (T : Int) →
    progressCount (runTicks data true cap s T).2 = (T - 1) / 5 + 1 := by
  intro T
  induction T with
  | zero => intro h; omega
  | succ n ih =>
      intro _ s h1 h2
      by_cases hn : n = 0
      · subst hn
        have ht := tick_expire data true cap s h1 (by omega)
        have h0 : s.timeLeft - 1 = 0 := by omega
        rw [h0] at ht
        have hrun : runTicks data true cap s 1
            = ((tick data true cap s).1, (tick data true cap s).2 ++ []) := rfl
        rw [hrun, ht]
        dsimp only
        rw [List.append_nil, progressCount_append, progressCount_snap,
          progressCount_finish_single]
        norm_num
      · have hn1 : 1 ≤ n := by omega
        have hc : s.timeLeft - 1 = (n : Int) := by omega
        have ht := tick_running data true cap s h1 (by omega)
        rw [hc] at ht
        have ihx := ih hn1 { s with timeLeft := (n : Int) } h1 rfl
        have hrun : runTicks data true cap s (n + 1)
            = ((runTicks data true cap { s with timeLeft := (n : Int) } n).1,
              (if ((n : Int)) % 5 = 0 ∧ true = true then
                [Event.progress s.answers ((n : Int))] else [])
                ++ (runTicks data true cap { s with timeLeft := (n : Int) } n).2) := by
          simp [runTicks, ht]
        rw [hrun]
        dsimp only
        rw [progressCount_append, progressCount_snap, ihx]
        by_cases h5 : ((n : Int)) % 5 = 0
        · rw [if_pos ⟨h5, rfl⟩]
          omega
        · rw [if_neg (by tauto)]
          omega

/-- Claim C1: with allocated time T > 0, exactly T firings of the
interval callback drive the remaining time to 0, stop the interval, and
deliver onFinish exactly once; any further firings leave the state
unchanged and deliver nothing. -/
theorem C1_tick_expiry (data : QuizData) (hp : Bool) (cap : Int) (idx : Int)
    (ans : UserAnswers) (T : Nat) (hT : 1 ≤ T) :
    (runTicks data hp cap ⟨idx, ans, (T : Int), true⟩ T).1.timeLeft = 0 ∧
    (runTicks data hp cap ⟨idx, ans, (T : Int), true⟩ T).1.timerRunning = false ∧
    finishCount (runTicks data hp cap ⟨idx, ans, (T : Int), true⟩ T).2 = 1 ∧
    (∀ k, runTicks data hp cap (runTicks data hp cap ⟨idx, ans, (T : Int), true⟩ T).1 k
      = ((runTicks data hp cap ⟨idx, ans, (T : Int), true⟩ T).1, [])) := by
  obtain ⟨h1, h2⟩ := run_expiry data hp cap T hT ⟨idx, ans, (T : Int), true⟩ rfl rfl
  refine ⟨by rw [h1], by rw [h1], h2,
    fun k => runTicks_stopped data hp cap _ (by rw [h1]) k⟩

/-- Witness for C1 at T = 5 on the sample quiz (the interval created at
mount captured timeLeft = 5). -/
theorem C1_tick_expiry_witness :
    finishCount (runTicks sampleQuiz true 5 ⟨0, [], ((5 : Nat) : Int), true⟩ 5).2 = 1 :=
  (C1_tick_expiry sampleQuiz true 5 0 [] 5 (by decide)).2.2.1

/-- Counterexample to C3 as stated: at allocated time T = 5, the full
run to expiry emits 1 snapshot (at remaining time 0 only), not
5 / 5 + 1 = 2: the starting value 5 is never the resulting value of a
tick. -/
theorem C3_count_counterexample :
    ¬ progressCount (runTicks sampleQuiz true 5 sampleSession 5).2 = 5 / 5 + 1 := by
  decide

/-- Claim C3 (amended): a snapshot is emitted on exactly those ticks
whose resulting remaining-time value is a multiple of five (the terminal
zero included), and a full run from allocated time T > 0 emits exactly
(T - 1) / 5 + 1 snapshots — which equals T / 5 + 1 exactly when T is not
a multiple of five, and T / 5 when it is. -/
theorem C3_progress_emissions (data : QuizData) (cap : Int) (s : SessionState)
    (h1 : s.timerRunning = true) :
    (progressCount (tick data true cap s).2 = if (s.timeLeft - 1) % 5 = 0 then 1 else 0) ∧
    (∀ T : Nat, 1 ≤ T → s.timeLeft = (T : Int) →
      progressCount (runTicks data true cap s T).2 = (T - 1) / 5 + 1) ∧
    (∀ T : Nat, 1 ≤ T →
      (¬ T % 5 = 0 → (T - 1) / 5 + 1 = T / 5 + 1) ∧
      (T % 5 = 0 → (T - 1) / 5 + 1 = T / 5)) := by
  refine ⟨?_, fun T hT h2 => run_progress data cap T hT s h1 h2,
    fun T hT => ⟨fun h5 => by omega, fun h5 => by omega⟩⟩
  by_cases hend : s.timeLeft - 1 ≤ 0
  · rw [tick_expire data true cap s h1 hend]
    dsimp only
    rw [progressCount_append, progressCount_snap, progressCount_finish_single]
    simp
  · rw [tick_running data true cap s h1 hend]
    dsimp only
    rw [progressCount_snap]
    simp

/-- Witness for C3 on the sample session (T = 5, one snapshot). -/
theorem C3_progress_witness :
    progressCount (runTicks sampleQuiz true 5 sampleSession 5).2 = (5 - 1) / 5 + 1 :=
  (C3_progress_emissions sampleQuiz 5 sampleSession rfl).2.1 5 (by decide) (by decide)

/-- Claim C2 (failing run): handleSubmit consults no guard, so the trace
of the timer-expiry run followed by one manual submission contains two
onFinish deliveries, not one. -/
theorem C2_double_submit_delivers_twice :
    finishCount ((runTicks sampleQuiz true 5 sampleSession 5).2
      ++ (manualSubmit sampleQuiz (runTicks sampleQuiz true 5 sampleSession 5).1).2) = 2 := by
  decide

/-- For keys other than the three navigation keys, the keydown handler
is the option-key table: the mapped letter is recorded when the current
question offers it, and everything else is a no-op. -/
theorem handleKeyDown_eq (data : QuizData) (s : SessionState) (key : String)
    (hL : key ≠ "ArrowLeft") (hR : key ≠ "ArrowRight") (hE : key ≠ "Enter") :
    handleKeyDown data s key false =
      (match mappedKey key with
       | none => s
       | some letter =>
          if (currentQuestion data s).options.any (fun o => o.key == letter) then
            handleSelectOption s (currentQuestion data s).id letter
          else s) := by
  have hRE : ¬ (key = "ArrowRight" ∨ key = "Enter") := not_or.mpr ⟨hR, hE⟩
  simp only [handleKeyDown, mappedKey, Bool.false_eq_true, if_false, if_neg hL, if_neg hRE]
  by_cases h1 : key = "1" ∨ key = "a" ∨ key = "A"
  · rw [if_pos h1, if_pos h1]
  · rw [if_neg h1, if_neg h1]
    by_cases h2 : key = "2" ∨ key = "b" ∨ key = "B"
    · rw [if_pos h2, if_pos h2]
    · rw [if_neg h2, if_neg h2]
      by_cases h3 : key = "3" ∨ key = "c" ∨ key = "C"
      · rw [if_pos h3, if_pos h3]
      · rw [if_neg h3, if_neg h3]
        by_cases h4 : key = "4" ∨ key = "d" ∨ key = "D"
        · rw [if_pos h4, if_pos h4]
        · rw [if_neg h4, if_neg h4]

/-- Counterexample to C6 as stated: ArrowRight does not map to any
option key, yet — read literally as any other key — it does change the
position. -/
theorem C6_counterexample :
    ¬ (handleKeyDown sampleQuiz sampleSession "ArrowRight" false).currentQuestionIndex
      = sampleSession.currentQuestionIndex := by
  decide

/-- Claim C6 (amended): for every key event other than the navigation
keys ArrowLeft, ArrowRight and Enter, an answer is recorded only when
the key maps (1/A to A, ..., 4/D to D, case-insensitive) to an option
key present on the current question — in which case exactly that answer
is recorded — and otherwise the state is completely unchanged; position,
timer and interval liveness are untouched by all such keys. -/
theorem C6_answer_keys (data : QuizData) (s : SessionState) (key : String)
    (hL : key ≠ "ArrowLeft") (hR : key ≠ "ArrowRight") (hE : key ≠ "Enter") :
    (handleKeyDown data s key false).currentQuestionIndex = s.currentQuestionIndex ∧
    (handleKeyDown data s key false).timeLeft = s.timeLeft ∧
    (handleKeyDown data s key false).timerRunning = s.timerRunning ∧
    (mappedKey key = none → handleKeyDown data s key false = s) ∧
    (∀ letter, mappedKey key = some letter →
      ((currentQuestion data s).options.any (fun o => o.key == letter) = true →
        handleKeyDown data s key false
          = handleSelectOption s (currentQuestion data s).id letter) ∧
      ((currentQuestion data s).options.any (fun o => o.key == letter) = false →
        handleKeyDown data s key false = s)) := by
  have e := handleKeyDown_eq data s key hL hR hE
  rcases hm : mappedKey key with _ | letter
  · rw [hm] at e
    have e2 : handleKeyDown data s key false = s := e
    exact ⟨by rw [e2], by rw [e2], by rw [e2], fun _ => e2,
      fun l hl => Option.noConfusion hl⟩
  · rw [hm] at e
    have e2 : handleKeyDown data s key false =
        (if ((currentQuestion data s).options.any fun o => o.key == letter) = true then
          handleSelectOption s (currentQuestion data s).id letter
        else s) := e
    by_cases hany : ((currentQuestion data s).options.any fun o => o.key == letter) = true
    · rw [if_pos hany] at e2
      refine ⟨by rw [e2]; rfl, by rw [e2]; rfl, by rw [e2]; rfl,
        fun hnone => Option.noConfusion hnone, fun l hl => ?_⟩
      injection hl with hl
      subst hl
      exact ⟨fun _ => e2, fun hfalse => by rw [hfalse] at hany; cases hany⟩
    · rw [if_neg hany] at e2
      refine ⟨by rw [e2], by rw [e2], by rw [e2],
        fun hnone => Option.noConfusion hnone, fun l hl => ?_⟩
      injection hl with hl
      subst hl
      exact ⟨fun htrue => absurd htrue hany, fun _ => e2⟩

/-- Witness for C6: the unmapped key x on the fresh sample session
changes nothing. -/
theorem C6_answer_keys_witness :
    handleKeyDown sampleQuiz sampleSession "x" false = sampleSession :=
  (C6_answer_keys sampleQuiz sampleSession "x" (by decide) (by decide)
    (by decide)).2.2.2.1 (by decide)

end QuizApp
